import Mathlib

/-!
# Countdown timekeeper: shallow embedding and verification

This file embeds the countdown session state machine of the timekeeper
repository (the `useCountdownTimekeeper` hook together with the storage
utilities) as executable Lean definitions, and settles the specification
claims about it.

Modelling conventions:
* Wall-clock timestamps and durations are `Int` milliseconds (`Date.now()`
  values); `remaining` may be negative.
* React state (`config`, `stateData`), mutable refs, and the two external
  stores (the snapshot slot written by `saveState`/`clearState` and the
  session history written by `saveSession`) are flattened into one `Hook`
  record; each controller callback becomes a function `Int → Hook → Hook`
  taking the current `Date.now()` value.
* Invoking a beep function is recorded by prepending an `Alert` to the
  `alerts` log; the per-call-site `!stateData.mute && audioEnabled` guard is
  kept (`fireAlert`).  Interval callbacks are modelled as functions
  (`armingTick`, `mainTick`, `persistTick`) enabled by the corresponding
  handle field (`armingTimer` / `mainTimer` / `persistTimer`), which also
  remembers the closure-captured `duration` argument; the remaining closure
  reads are modelled as reads of the current fields.
* JavaScript truthiness tests on nullable numbers and strings
  (`if (startTimestampRef.current)`, `x || y`) are modelled by `truthy` /
  `truthyStr` (null and `0` / the empty string are falsy).
* `generateId` concatenates `Date.now()` with a random suffix; the random
  suffix is irrelevant to every claim and is modelled as a fixed tag, so the
  id stays a non-empty string determined by the clock.
-/

namespace Timekeeper

/-- The `export type TimekeeperState` union: idle, arming, running, paused, finished, aborted. -/
inductive TimekeeperState where
  | idle | arming | running | paused | finished | aborted
deriving DecidableEq, Repr

/-- The `status` of a session record: finished or aborted. -/
inductive SessionStatus where
  | finished | aborted
deriving DecidableEq, Repr

/-- `interface Session` from the storage utilities. -/
structure Session where
  id : String
  activityType : String
  targetDurationMs : Int
  startAt : Int
  endAt : Int
  status : SessionStatus
  effectiveDurationMs : Int
  overdueMs : Option Int
deriving DecidableEq, Repr

/-- `interface PersistedState` from the storage utilities.  The `state`
field is a string in the source but only ever holds `TimekeeperState`
values, so it is typed as such here. -/
structure PersistedState where
  state : TimekeeperState
  activityType : String
  targetDurationMs : Int
  startTimestamp : Option Int
  pausedAt : Option Int
  accumulatedPausedMs : Int
  armingStartTimestamp : Option Int
  warningTriggered : Bool
  mute : Bool
deriving DecidableEq, Repr

/-- The five beep functions of the audio utilities, i.e. the alert kinds the
controller can fire: arming countdown tick, start, warning, finish, abort. -/
inductive Alert where
  | beepOnce | beepDouble | beepWarningTriple | beepFinishAlarm | beepAbortLow
deriving DecidableEq, Repr

/-- `const MAX_SESSIONS = 100`. -/
def MAX_SESSIONS : Nat := 100

/-- `const ARMING_DURATION = 3000`. -/
def ARMING_DURATION : Int := 3000

/-- `saveSession`: prepend the new record and keep the most recent
`MAX_SESSIONS` (`[session, ...existing].slice(0, MAX_SESSIONS)`). -/
def saveSession (session : Session) (existing : List Session) : List Session :=
  (session :: existing).take MAX_SESSIONS

/-- `generateId()`: the `Date.now()` value followed by a random suffix; the
suffix is modelled as a fixed tag (it is never inspected). -/
def generateId (now : Int) : String :=
  toString now ++ "-x"

/-- JavaScript truthiness of a nullable number: `null` and `0` are falsy. -/
def truthy (x : Option Int) : Bool :=
  x.getD 0 != 0

/-- JavaScript truthiness of a nullable string: `null` and `""` are falsy. -/
def truthyStr (x : Option String) : Bool :=
  x.getD "" != ""

/-- `Math.ceil(x / 1000)` on an integer number of milliseconds. -/
def ceilDiv1000 (x : Int) : Int :=
  Int.ediv (x + 999) 1000

/-- The flattened controller: session configuration, observable
`stateData`, the mutable refs, the audio gate, the interval handles (with
their closure-captured durations), and the two external stores plus the
alert log. -/
structure Hook where
  -- TimekeeperConfig
  activityType : String
  targetMinutes : Int
  targetSeconds : Int
  warningThresholdMinutes : Int
  -- TimekeeperStateData
  state : TimekeeperState
  remainingMs : Int
  armingCountdown : Int
  isWarning : Bool
  mute : Bool
  -- audio gate
  audioEnabled : Bool
  -- refs
  startTimestamp : Option Int
  pausedAt : Option Int
  accumulatedPausedMs : Int
  armingStartTimestamp : Option Int
  warningTriggered : Bool
  finishAlarmTriggered : Bool
  sessionId : Option String
  lastCountdown : Option Int
  -- interval handles (value = the `duration` captured by the callback)
  mainTimer : Option Int
  armingTimer : Option Int
  persistTimer : Bool
  -- external stores and alert log
  snapshot : Option PersistedState
  sessions : List Session
  alerts : List Alert
deriving DecidableEq, Repr

/-- The initial `useState` values of the hook: default config
`{Loading, 5, 0, 2}`, idle state, everything else empty. -/
def initialHook : Hook :=
  { activityType := "Loading", targetMinutes := 5, targetSeconds := 0,
    warningThresholdMinutes := 2,
    state := .idle, remainingMs := 0, armingCountdown := 0,
    isWarning := false, mute := false, audioEnabled := false,
    startTimestamp := none, pausedAt := none, accumulatedPausedMs := 0,
    armingStartTimestamp := none, warningTriggered := false,
    finishAlarmTriggered := false, sessionId := none, lastCountdown := none,
    mainTimer := none, armingTimer := none, persistTimer := false,
    snapshot := none, sessions := [], alerts := [] }

/-- `const targetDurationMs = config.targetMinutes * 60 * 1000 + config.targetSeconds * 1000`. -/
def targetDurationMs (h : Hook) : Int :=
  h.targetMinutes * 60 * 1000 + h.targetSeconds * 1000

/-- `const warningThresholdMs = config.warningThresholdMinutes * 60 * 1000`. -/
def warningThresholdMs (h : Hook) : Int :=
  h.warningThresholdMinutes * 60 * 1000

/-- A beep call site `if (!stateData.mute && audioEnabled) beepX()`:
record the alert only when unmuted and audio-enabled. -/
def fireAlert (a : Alert) (h : Hook) : Hook :=
  if h.mute = false ∧ h.audioEnabled = true then
    { h with alerts := a :: h.alerts }
  else h

/-- `clearTimer`: clear both interval handles. -/
def clearTimer (h : Hook) : Hook :=
  { h with mainTimer := none, armingTimer := none, persistTimer := false }

/-- `clearState()`: remove the persisted snapshot. -/
def clearState (h : Hook) : Hook :=
  { h with snapshot := none }

/-- `persistState(currentState)`: overwrite the snapshot slot with the
current configuration, refs and mute flag under the given state tag. -/
def persistState (currentState : TimekeeperState) (h : Hook) : Hook :=
  let stateToSave : PersistedState :=
    { state := currentState,
      activityType := h.activityType,
      targetDurationMs := targetDurationMs h,
      startTimestamp := h.startTimestamp,
      pausedAt := h.pausedAt,
      accumulatedPausedMs := h.accumulatedPausedMs,
      armingStartTimestamp := h.armingStartTimestamp,
      warningTriggered := h.warningTriggered,
      mute := h.mute }
  { h with snapshot := some stateToSave }

/-- `startArmingTimer(duration)` minus the interval body: clear timers,
stamp `armingStartTimestamp = Date.now()`, reset the warning / finish-alarm
flags and the last countdown value, and register the arming interval
(whose callback is `armingTick`). -/
def startArmingTimer (now duration : Int) (h : Hook) : Hook :=
  { clearTimer h with
    armingStartTimestamp := some now,
    warningTriggered := false,
    finishAlarmTriggered := false,
    lastCountdown := none,
    armingTimer := some duration }

/-- `startTimer(duration)` minus the interval bodies: clear timers, register
the display interval (callback `mainTick`) and the persist interval
(callback `persistTick`), then an immediate `persistState` call under the running tag. -/
def startTimer (duration : Int) (h : Hook) : Hook :=
  persistState .running
    { clearTimer h with mainTimer := some duration, persistTimer := true }

/-- `finishSession()`: clear timers; when `startTimestampRef.current` and
`sessionIdRef.current` are truthy, build the finished record
(`effectiveDuration = endTime − start − accumulatedPausedMs`, overdue when
beyond target) and save it; set state `finished` with `remainingMs = 0`;
fire the finish alarm; null out all refs and clear the snapshot. -/
def finishSession (now : Int) (h : Hook) : Hook :=
  let h0 := clearTimer h
  let h1 :=
    if truthy h0.startTimestamp = true ∧ truthyStr h0.sessionId = true then
      let start := h0.startTimestamp.getD 0
      let endTime := now
      let effectiveDuration := endTime - start - h0.accumulatedPausedMs
      let overdueMs :=
        if effectiveDuration > targetDurationMs h0 then
          effectiveDuration - targetDurationMs h0
        else 0
      let session : Session :=
        { id := h0.sessionId.getD "",
          activityType := h0.activityType,
          targetDurationMs := targetDurationMs h0,
          startAt := start,
          endAt := endTime,
          status := .finished,
          effectiveDurationMs := effectiveDuration,
          overdueMs := if overdueMs > 0 then some overdueMs else none }
      { h0 with sessions := saveSession session h0.sessions }
    else h0
  let h2 := { h1 with state := .finished, remainingMs := 0, isWarning := false }
  let h3 := fireAlert .beepFinishAlarm h2
  let h4 := { h3 with
              startTimestamp := none, pausedAt := none,
              accumulatedPausedMs := 0, armingStartTimestamp := none,
              warningTriggered := false, finishAlarmTriggered := false,
              sessionId := none }
  clearState h4

/-- The body of the ~60fps display interval registered by `startTimer`:
recompute `remaining = duration − (now − start − accumulatedPausedMs)`,
fire the warning at the first crossing of the threshold while positive,
fire the finish alarm the first time `remaining ≤ 0`, and publish the
(possibly negative) remaining value.  A no-op when the interval is not
registered or `startTimestampRef.current` is falsy. -/
def mainTick (now : Int) (h : Hook) : Hook :=
  match h.mainTimer with
  | none => h
  | some duration =>
    if truthy h.startTimestamp = true then
      let start := h.startTimestamp.getD 0
      let elapsed := now - start - h.accumulatedPausedMs
      let remaining := duration - elapsed
      let h1 :=
        if h.warningTriggered = false ∧ 0 < remaining ∧
            remaining ≤ warningThresholdMs h then
          let hw := { h with warningTriggered := true, isWarning := true }
          fireAlert .beepWarningTriple hw
        else h
      let h2 :=
        if h1.finishAlarmTriggered = false ∧ remaining ≤ 0 then
          let hf := { h1 with finishAlarmTriggered := true }
          fireAlert .beepFinishAlarm hf
        else h1
      { h2 with remainingMs := remaining }
    else h

/-- The body of the 250ms persistence interval registered by `startTimer`:
`persistState` under the running tag. -/
def persistTick (h : Hook) : Hook :=
  if h.persistTimer then persistState .running h else h

/-- `transitionToRunning(duration)`: state `running`, zero the arming
countdown, stamp `startTimestamp = Date.now()`, reset the accumulated pause
and `pausedAt`, generate the session id, fire the start beep, and start the
main timer. -/
def transitionToRunning (now duration : Int) (h : Hook) : Hook :=
  let h1 := { h with
              state := .running, armingCountdown := 0,
              startTimestamp := some now, accumulatedPausedMs := 0,
              pausedAt := none, sessionId := some (generateId now) }
  startTimer duration (fireAlert .beepDouble h1)

/-- The body of the 100ms arming interval registered by `startArmingTimer`:
countdown beep on each changed positive `Math.ceil(remaining/1000)` value,
then either transition to running (arming window elapsed) or publish the
clamped countdown. -/
def armingTick (now : Int) (h : Hook) : Hook :=
  match h.armingTimer with
  | none => h
  | some duration =>
    let ast := if truthy h.armingStartTimestamp = true then
        h.armingStartTimestamp.getD 0
      else now
    let elapsed := now - ast
    let remaining := ARMING_DURATION - elapsed
    let countdown := ceilDiv1000 remaining
    let h1 :=
      if 0 < countdown ∧ some countdown ≠ h.lastCountdown ∧
          h.mute = false ∧ h.audioEnabled = true then
        { h with alerts := Alert.beepOnce :: h.alerts,
                 lastCountdown := some countdown }
      else h
    if remaining ≤ 0 then
      transitionToRunning now duration (clearTimer h1)
    else
      { h1 with armingCountdown := max 0 countdown }

/-- `startSession()`: only from `idle`; set state `arming`, start the
arming timer with the configured target duration, persist. -/
def startSession (now : Int) (h : Hook) : Hook :=
  if h.state ≠ .idle then h
  else
    persistState .arming
      (startArmingTimer now (targetDurationMs h) { h with state := .arming })

/-- `pauseSession()`: only from `running`; clear timers, stamp
`pausedAt = Date.now()`, set state `paused`, persist. -/
def pauseSession (now : Int) (h : Hook) : Hook :=
  if h.state ≠ .running then h
  else
    persistState .paused
      { clearTimer h with pausedAt := some now, state := .paused }

/-- `resumeSession()`: only from `paused` with truthy `startTimestamp` and
`pausedAt`; add the pause interval to `accumulatedPausedMs`, clear
`pausedAt`, set state `running`; then either finish (recomputed remaining
≤ 0) or restart the main timer. -/
def resumeSession (now : Int) (h : Hook) : Hook :=
  if h.state ≠ .paused ∨ truthy h.startTimestamp = false ∨
      truthy h.pausedAt = false then h
  else
    let pAt := h.pausedAt.getD 0
    let start := h.startTimestamp.getD 0
    let h1 := { h with
                accumulatedPausedMs := h.accumulatedPausedMs + (now - pAt),
                pausedAt := none, state := .running }
    let nowElapsed := now - start - h1.accumulatedPausedMs
    let remaining := targetDurationMs h1 - nowElapsed
    if remaining ≤ 0 then finishSession now h1
    else startTimer (targetDurationMs h1) h1

/-- `abortSession()`: a no-op from `idle` and `finished`; otherwise clear
timers, commit an aborted record when `startTimestamp` and `sessionId` are
truthy, set state `aborted`, fire the abort beep, null out the refs and
clear the snapshot. -/
def abortSession (now : Int) (h : Hook) : Hook :=
  if h.state = .idle ∨ h.state = .finished then h
  else
    let h0 := clearTimer h
    let h1 :=
      if truthy h0.startTimestamp = true ∧ truthyStr h0.sessionId = true then
        let start := h0.startTimestamp.getD 0
        let endTime := now
        let effectiveDuration := endTime - start - h0.accumulatedPausedMs
        let overdueMs :=
          if effectiveDuration > targetDurationMs h0 then
            effectiveDuration - targetDurationMs h0
          else 0
        let session : Session :=
          { id := h0.sessionId.getD "",
            activityType := h0.activityType,
            targetDurationMs := targetDurationMs h0,
            startAt := start,
            endAt := endTime,
            status := .aborted,
            effectiveDurationMs := effectiveDuration,
            overdueMs := if overdueMs > 0 then some overdueMs else none }
        { h0 with sessions := saveSession session h0.sessions }
      else h0
    let h2 := { h1 with
                state := .aborted, isWarning := false,
                armingCountdown := 0 }
    let h3 := fireAlert .beepAbortLow h2
    let h4 := { h3 with
                startTimestamp := none, pausedAt := none,
                accumulatedPausedMs := 0, armingStartTimestamp := none,
                warningTriggered := false, finishAlarmTriggered := false,
                sessionId := none }
    clearState h4

/-- `resetSession()`: unconditional; clear timers, reset `stateData` to
idle (preserving `mute`), null out the refs and clear the snapshot. -/
def resetSession (h : Hook) : Hook :=
  let h1 := { clearTimer h with
              state := .idle, remainingMs := 0, armingCountdown := 0,
              isWarning := false,
              startTimestamp := none, pausedAt := none,
              accumulatedPausedMs := 0, armingStartTimestamp := none,
              warningTriggered := false, finishAlarmTriggered := false,
              sessionId := none }
  clearState h1

/-- The mount restore effect of `useCountdownTimekeeper` (`getState()` then
reconciliation): for a non-idle saved snapshot, restore configuration
activity type (`||` keeps the previous value for a falsy one), state tag,
mute flag and all refs, then: `running` with truthy start timestamp —
recompute remaining and either synthesize the finish or restart the timer;
`arming` with truthy arming timestamp — recompute the arming remainder and
either transition to running or restart the arming timer; `paused` — keep
as restored. -/
def mountRestore (now : Int) (h : Hook) : Hook :=
  match h.snapshot with
  | none => h
  | some savedState =>
    if savedState.state = .idle then h
    else
      let h1 := { h with
        activityType := if savedState.activityType = "" then h.activityType
          else savedState.activityType,
        state := savedState.state,
        mute := savedState.mute,
        startTimestamp := savedState.startTimestamp,
        pausedAt := savedState.pausedAt,
        accumulatedPausedMs := savedState.accumulatedPausedMs,
        armingStartTimestamp := savedState.armingStartTimestamp,
        warningTriggered := savedState.warningTriggered }
      if savedState.state = .running then
        if truthy h1.startTimestamp = true then
          let start := h1.startTimestamp.getD 0
          let elapsed := now - start - h1.accumulatedPausedMs
          let remaining := savedState.targetDurationMs - elapsed
          if remaining ≤ 0 then finishSession now h1
          else startTimer savedState.targetDurationMs h1
        else h1
      else if savedState.state = .arming then
        if truthy h1.armingStartTimestamp = true then
          let elapsed := now - h1.armingStartTimestamp.getD 0
          let remaining := ARMING_DURATION - elapsed
          if remaining ≤ 0 then
            transitionToRunning now savedState.targetDurationMs h1
          else startArmingTimer now savedState.targetDurationMs h1
        else h1
      else h1

/-- Number of occurrences of an alert kind in the alert log. -/
def countAlert (a : Alert) : List Alert → Nat
  | [] => 0
  | b :: l => (if b = a then 1 else 0) + countAlert a l

end Timekeeper

/-!
## Concrete controller states used by the scenario theorems

All timestamps are nonzero so that the JavaScript truthiness tests behave
as for realistic `Date.now()` values.
-/

namespace Timekeeper

/-- A fresh controller whose audio gate has been enabled (after
`enableAudio`), so alert firing is observable. -/
def soundHook : Hook := { initialHook with audioEnabled := true }

/-- Sound-enabled controller configured with a 10000ms target
(the target of the overdue scenario in the specification). -/
def c1start : Hook :=
  { soundHook with targetMinutes := 0, targetSeconds := 10 }

/-- Sound-enabled controller configured with a 1000ms target. -/
def c3start : Hook :=
  { soundHook with targetMinutes := 0, targetSeconds := 1 }

/-- A persisted running snapshot whose deadline has passed by restore
time: target 10000ms, started at t=1000, restored at t=16000. -/
def c2snapshot : PersistedState :=
  { state := .running, activityType := "Repair", targetDurationMs := 10000,
    startTimestamp := some 1000, pausedAt := none, accumulatedPausedMs := 0,
    armingStartTimestamp := none, warningTriggered := false, mute := false }

/-- A persisted running snapshot with a non-default target duration
(600000ms) while the in-memory config still holds the default
(5 minutes, i.e. 300000ms). -/
def c6snapshot : PersistedState :=
  { state := .running, activityType := "Repair", targetDurationMs := 600000,
    startTimestamp := some 1000, pausedAt := none, accumulatedPausedMs := 0,
    armingStartTimestamp := none, warningTriggered := false, mute := false }

/-- Sound-enabled controller with a 10000ms target, driven to Running:
started at t=300, arming window crossed at t=3300. -/
def c8start : Hook :=
  { soundHook with targetMinutes := 0, targetSeconds := 10 }

/-- The running controller reached from `c8start` (startTimestamp 3300,
session id generated). -/
def c8hook : Hook := armingTick 3300 (startSession 300 c8start)

/-- A paused controller with the default 300000ms target: started at
t=500, running from t=3500, paused at t=13500 (elapsed 10000ms). -/
def c9paused : Hook :=
  pauseSession 13500 (armingTick 3500 (startSession 500 soundHook))

/-!
## Helper lemmas
-/

/-- `fireAlert` never changes the state tag. -/
theorem fireAlert_state (a : Alert) (h : Hook) :
    (fireAlert a h).state = h.state := by
  unfold fireAlert; split <;> rfl

/-- `fireAlert` never changes the session history. -/
theorem fireAlert_sessions (a : Alert) (h : Hook) :
    (fireAlert a h).sessions = h.sessions := by
  unfold fireAlert; split <;> rfl

/-- `fireAlert` never changes the snapshot slot. -/
theorem fireAlert_snapshot (a : Alert) (h : Hook) :
    (fireAlert a h).snapshot = h.snapshot := by
  unfold fireAlert; split <;> rfl

/-- `fireAlert` never changes the finish-alarm flag. -/
theorem fireAlert_finishAlarmTriggered (a : Alert) (h : Hook) :
    (fireAlert a h).finishAlarmTriggered = h.finishAlarmTriggered := by
  unfold fireAlert; split <;> rfl

/-- Once the finish-alarm flag is set, a display tick never adds another
finish alarm to the alert log. -/
theorem countAlert_finish_mainTick (now : Int) (w : Hook)
    (hw : w.finishAlarmTriggered = true) :
    countAlert .beepFinishAlarm (mainTick now w).alerts
      = countAlert .beepFinishAlarm w.alerts := by
  unfold mainTick
  cases htm : w.mainTimer with
  | none => rfl
  | some d =>
    simp only []
    split
    · split
      · simp [fireAlert, hw, countAlert]
        split <;> simp [countAlert]
      · simp [hw]
    · rfl

/-- On a running controller whose recomputed remaining time is not
positive and whose finish-alarm flag is still clear, the display tick
only fires the finish alarm, sets the flag and publishes the negative
remaining value. -/
theorem mainTick_overdue_eq (now : Int) (h : Hook) (d s : Int)
    (ht : h.mainTimer = some d) (hs : h.startTimestamp = some s) (hs0 : s ≠ 0)
    (hf : h.finishAlarmTriggered = false)
    (hrem : d - (now - s - h.accumulatedPausedMs) ≤ 0) :
    mainTick now h
      = { fireAlert .beepFinishAlarm { h with finishAlarmTriggered := true } with
          remainingMs := d - (now - s - h.accumulatedPausedMs) } := by
  have hA : truthy (some s) = true := by
    simp [truthy, bne_iff_ne, hs0]
  have hW : ¬(h.warningTriggered = false ∧
      0 < d - (now - s - h.accumulatedPausedMs) ∧
      d - (now - s - h.accumulatedPausedMs) ≤ warningThresholdMs h) := by
    rintro ⟨-, hpos, -⟩; omega
  simp only [mainTick, ht, hs, Option.getD]
  rw [if_pos hA, if_neg hW, if_pos (⟨hf, hrem⟩ :
    h.finishAlarmTriggered = false ∧ d - (now - s - h.accumulatedPausedMs) ≤ 0)]
  rw [hs, ht]

/-- The nested overdue computation of the session-record constructors
equals its direct conditional form. -/
theorem overdueForm (eff t : Int) :
    (if (if eff > t then eff - t else 0) > 0
      then some (if eff > t then eff - t else 0) else none)
      = if eff > t then some (eff - t) else none := by
  split_ifs <;> first | rfl | (exfalso; omega)

/-- `finishSession` always leaves the controller in the finished state. -/
theorem finishSession_state (now : Int) (h : Hook) :
    (finishSession now h).state = .finished := by
  simp only [finishSession]
  split <;> simp [clearState, fireAlert_state]

/-!
## Claim theorems
-/

/-- Claim C1, counterexample: in the concrete overdue scenario of the
specification (target 10000ms, tick 15000ms after the Running transition),
the tick leaves the state Running, commits no session record, keeps the
snapshot, publishes the negative remaining value, and fires the finish
alert once — the claimed transition to Finished does not happen. -/
theorem c1_cex :
    (mainTick 18100 (armingTick 3100 (startSession 100 c1start))).state
        = TimekeeperState.running ∧
    (mainTick 18100 (armingTick 3100 (startSession 100 c1start))).sessions = [] ∧
    (mainTick 18100 (armingTick 3100 (startSession 100 c1start))).snapshot ≠ none ∧
    (mainTick 18100 (armingTick 3100 (startSession 100 c1start))).remainingMs = -5000 ∧
    countAlert .beepFinishAlarm
        (mainTick 18100 (armingTick 3100 (startSession 100 c1start))).alerts = 1 := by
  decide

/-- Claim C1, amended: when the periodic tick first observes recomputed
remaining ≤ 0 on a Running session, it fires the finish alert exactly once
(the flag is set and later ticks add no further finish alarm) and keeps
displaying the negative remaining as overdue, but the controller stays in
its state: no session record is committed and the snapshot is not cleared
by the tick.  The Finished transition is performed only by explicit
`finishSession` calls (mount restore, or resume past the deadline). -/
theorem c1_amended (now : Int) (h : Hook) (d s : Int)
    (ht : h.mainTimer = some d) (hs : h.startTimestamp = some s) (hs0 : s ≠ 0)
    (hf : h.finishAlarmTriggered = false)
    (hrem : d - (now - s - h.accumulatedPausedMs) ≤ 0) :
    (mainTick now h).state = h.state ∧
    (mainTick now h).sessions = h.sessions ∧
    (mainTick now h).snapshot = h.snapshot ∧
    (mainTick now h).finishAlarmTriggered = true ∧
    (mainTick now h).remainingMs = d - (now - s - h.accumulatedPausedMs) ∧
    (h.mute = false → h.audioEnabled = true →
      (mainTick now h).alerts = Alert.beepFinishAlarm :: h.alerts) ∧
    ∀ now2 : Int,
      countAlert .beepFinishAlarm (mainTick now2 (mainTick now h)).alerts
        = countAlert .beepFinishAlarm (mainTick now h).alerts := by
  rw [mainTick_overdue_eq now h d s ht hs hs0 hf hrem]
  refine ⟨?_, ?_, ?_, ?_, rfl, ?_, ?_⟩
  · simpa using fireAlert_state _ _
  · simpa using fireAlert_sessions _ _
  · simpa using fireAlert_snapshot _ _
  · simpa using fireAlert_finishAlarmTriggered _ _
  · intro hm ha; simp [fireAlert, hm, ha]
  · intro now2
    apply countAlert_finish_mainTick
    simpa using fireAlert_finishAlarmTriggered _ _

/-- Claim C1, witness for the amended theorem at the concrete overdue
scenario. -/
theorem c1_amended_witness :
    (mainTick 18100 (armingTick 3100 (startSession 100 c1start))).state
        = (armingTick 3100 (startSession 100 c1start)).state ∧
    (mainTick 18100 (armingTick 3100 (startSession 100 c1start))).finishAlarmTriggered
        = true := by
  have happ := c1_amended 18100 (armingTick 3100 (startSession 100 c1start))
    10000 3100 (by decide) (by decide) (by decide) (by decide) (by decide)
  exact ⟨happ.1, happ.2.2.2.1⟩

/-- Claim C2, code bug: restoring a Running snapshot whose deadline has
passed performs the Finished transition and clears the snapshot, but
commits no session record to the history — the session id is not part of
the persisted snapshot, so the commit guard inside finishSession fails
and the completed session is silently lost. -/
theorem c2_bug :
    (mountRestore 16000 { initialHook with snapshot := some c2snapshot }).state
        = TimekeeperState.finished ∧
    (mountRestore 16000 { initialHook with snapshot := some c2snapshot }).sessions
        = [] ∧
    (mountRestore 16000 { initialHook with snapshot := some c2snapshot }).snapshot
        = none := by
  decide

/-- Claim C3, code bug: the finish alert fires twice in a single session
with no restart — the tick fires it at the first overdue observation, and
finishSession (reached here through pause and resume past the deadline)
fires it again without consulting the finish-alarm flag. -/
theorem c3_bug :
    countAlert .beepFinishAlarm
      (resumeSession 5100 (pauseSession 4700 (mainTick 4600
        (armingTick 3100 (startSession 100 c3start))))).alerts = 2 ∧
    (resumeSession 5100 (pauseSession 4700 (mainTick 4600
        (armingTick 3100 (startSession 100 c3start))))).state
      = TimekeeperState.finished := by
  decide

/-- Claim C4, code bug: aborting while Paused (started at 3100, paused at
13100, aborted at 18100) produces a record whose effectiveDurationMs is
15000 — the 5000ms pause interval preceding the abort is included, because
abortSession never folds the open pause interval into the accumulated
pause duration; the claim requires 10000. -/
theorem c4_bug :
    (abortSession 18100 (pauseSession 13100 (armingTick 3100
        (startSession 100 soundHook)))).sessions.map Session.effectiveDurationMs
      = [15000] ∧
    (pauseSession 13100 (armingTick 3100
        (startSession 100 soundHook))).pausedAt = some 13100 ∧
    (pauseSession 13100 (armingTick 3100
        (startSession 100 soundHook))).startTimestamp = some 3100 ∧
    (15000 : Int) ≠ 13100 - 3100 := by
  decide

/-- Claim C5, counterexample: resetSession called on a Running controller
is not a no-op — it transitions the controller to Idle. -/
theorem c5_cex :
    (armingTick 3200 (startSession 200 initialHook)).state
        = TimekeeperState.running ∧
    (resetSession (armingTick 3200 (startSession 200 initialHook))).state
        = TimekeeperState.idle ∧
    resetSession (armingTick 3200 (startSession 200 initialHook))
        ≠ armingTick 3200 (startSession 200 initialHook) := by
  decide

/-- Claim C5, amended: start, pause, resume and abort are guarded no-ops
outside their listed source states (in particular pause while Idle has no
effect), but resetSession is unguarded and moves every state — including
Arming, Running and Paused — to Idle. -/
theorem c5_amended (now : Int) (h : Hook) :
    (h.state ≠ .idle → startSession now h = h) ∧
    (h.state ≠ .running → pauseSession now h = h) ∧
    (h.state ≠ .paused → resumeSession now h = h) ∧
    (h.state = .idle ∨ h.state = .finished → abortSession now h = h) ∧
    (resetSession h).state = .idle := by
  refine ⟨?_, ?_, ?_, ?_, ?_⟩
  · intro hne; unfold startSession; rw [if_pos hne]
  · intro hne; unfold pauseSession; rw [if_pos hne]
  · intro hne; unfold resumeSession; rw [if_pos (Or.inl hne)]
  · intro hterm; unfold abortSession; rw [if_pos hterm]
  · rfl

/-- Claim C5, witness for the amended theorem: pause while Idle is a
no-op, and reset from Running lands in Idle. -/
theorem c5_amended_witness :
    pauseSession 500 initialHook = initialHook ∧
    (resetSession (armingTick 3200 (startSession 200 initialHook))).state
        = TimekeeperState.idle := by
  exact ⟨(c5_amended 500 initialHook).2.1 (by decide),
    (c5_amended 500 (armingTick 3200 (startSession 200 initialHook))).2.2.2.2⟩

/-- Claim C6, code bug: restoring a running snapshot with target 600000ms
and immediately re-snapshotting (the restore path itself re-persists via
startTimer) writes targetDurationMs 300000 — the value derived from the
default in-memory config, because the restore effect never writes the
saved target duration back into the config. -/
theorem c6_bug :
    (mountRestore 2000 { initialHook with snapshot := some c6snapshot }).snapshot.map
        PersistedState.targetDurationMs = some 300000 ∧
    c6snapshot.targetDurationMs = 600000 ∧
    (300000 : Int) ≠ 600000 := by
  decide

/-- Claim C7, counterexample: aborting while Arming transitions to
Aborted, fires the abort alert and clears the snapshot, but commits no
session record — the history stays empty. -/
theorem c7_cex :
    (abortSession 700 (startSession 300 soundHook)).state
        = TimekeeperState.aborted ∧
    (abortSession 700 (startSession 300 soundHook)).sessions = [] ∧
    (abortSession 700 (startSession 300 soundHook)).snapshot = none ∧
    (abortSession 700 (startSession 300 soundHook)).alerts
        = [Alert.beepAbortLow] ∧
    (startSession 300 soundHook).state = TimekeeperState.arming := by
  decide

/-- Claim C7, amended: abort while Arming (no session id exists yet)
transitions to Aborted, leaves the session history unchanged, clears the
snapshot, and fires the abort alert when sound is on; no session record
is committed because the commit guard requires a start timestamp and a
session id, which are only set at the Running transition. -/
theorem c7_amended (now : Int) (h : Hook)
    (hst : h.state = .arming) (hid : h.sessionId = none) :
    (abortSession now h).state = .aborted ∧
    (abortSession now h).sessions = h.sessions ∧
    (abortSession now h).snapshot = none ∧
    (h.mute = false → h.audioEnabled = true →
      (abortSession now h).alerts = Alert.beepAbortLow :: h.alerts) := by
  have hguard : ¬(h.state = .idle ∨ h.state = .finished) := by
    rw [hst]; rintro (hc | hc) <;> cases hc
  have hcommit : ¬(truthy (clearTimer h).startTimestamp = true ∧
      truthyStr (clearTimer h).sessionId = true) := by
    rintro ⟨-, hsid⟩
    simp [clearTimer, truthyStr, hid] at hsid
  simp only [abortSession]
  rw [if_neg hguard, if_neg hcommit]
  refine ⟨?_, ?_, ?_, ?_⟩
  · simp [clearState, fireAlert_state]
  · simp [clearState, fireAlert_sessions, clearTimer]
  · simp [clearState]
  · intro hm ha
    simp [clearState, fireAlert, hm, ha, clearTimer]

/-- Claim C7, witness for the amended theorem at a concrete arming
controller. -/
theorem c7_amended_witness :
    (abortSession 900 (startSession 400 soundHook)).state
        = TimekeeperState.aborted ∧
    (abortSession 900 (startSession 400 soundHook)).sessions
        = (startSession 400 soundHook).sessions ∧
    (abortSession 900 (startSession 400 soundHook)).snapshot = none := by
  have happ := c7_amended 900 (startSession 400 soundHook)
    (by decide) (by decide)
  exact ⟨happ.1, happ.2.1, happ.2.2.1⟩

/-- Claim C8, counterexample: aborting from Arming is a transition into
Aborted that creates no session record, so it is not the case that every
transition into a terminal state creates exactly one record. -/
theorem c8_cex :
    (abortSession 900 (startSession 400 initialHook)).state
        = TimekeeperState.aborted ∧
    (abortSession 900 (startSession 400 initialHook)).sessions = [] := by
  decide

/-- Claim C8, amended: when the start timestamp and session id are set
(the session reached Running in this process), a terminal transition
through finishSession or abortSession prepends exactly one record to the
capped history, and that record has
effectiveDurationMs = endAt − startAt − accumulatedPausedMs, with the
accumulated value held at commit time; transitions without a session id
(abort from Arming, finish synthesized after a restart) commit none. -/
theorem c8_amended (now : Int) (h : Hook) (s : Int) (sid : String)
    (hs : h.startTimestamp = some s) (hs0 : s ≠ 0)
    (hid : h.sessionId = some sid) (hid0 : sid ≠ "") :
    (finishSession now h).sessions =
      ({ id := sid, activityType := h.activityType,
         targetDurationMs := targetDurationMs h, startAt := s, endAt := now,
         status := .finished,
         effectiveDurationMs := now - s - h.accumulatedPausedMs,
         overdueMs := if now - s - h.accumulatedPausedMs > targetDurationMs h
             then some (now - s - h.accumulatedPausedMs - targetDurationMs h)
             else none } :: h.sessions).take MAX_SESSIONS ∧
    (h.state ≠ .idle → h.state ≠ .finished →
      (abortSession now h).sessions =
      ({ id := sid, activityType := h.activityType,
         targetDurationMs := targetDurationMs h, startAt := s, endAt := now,
         status := .aborted,
         effectiveDurationMs := now - s - h.accumulatedPausedMs,
         overdueMs := if now - s - h.accumulatedPausedMs > targetDurationMs h
             then some (now - s - h.accumulatedPausedMs - targetDurationMs h)
             else none } :: h.sessions).take MAX_SESSIONS) := by
  have hcommit : truthy (clearTimer h).startTimestamp = true ∧
      truthyStr (clearTimer h).sessionId = true := by
    constructor
    · simp [clearTimer, truthy, hs, bne_iff_ne, hs0]
    · simp [clearTimer, truthyStr, hid, bne_iff_ne, hid0]
  constructor
  · simp only [finishSession]
    rw [if_pos hcommit]
    simp [clearState, fireAlert_sessions, clearTimer, saveSession,
      targetDurationMs, hs, hid, overdueForm]
  · intro h1 h2
    have hguard : ¬(h.state = .idle ∨ h.state = .finished) := by
      rintro (hc | hc)
      · exact h1 hc
      · exact h2 hc
    simp only [abortSession]
    rw [if_neg hguard, if_pos hcommit]
    simp [clearState, fireAlert_sessions, clearTimer, saveSession,
      targetDurationMs, hs, hid, overdueForm]

/-- Claim C8, witness for the amended theorem at a concrete running
controller: the committed finished record has effective duration
20300 − 3300 − 0 = 17000, and the abort path commits the aborted record. -/
theorem c8_amended_witness :
    (finishSession 20300 c8hook).sessions.map Session.effectiveDurationMs
        = [17000] ∧
    (abortSession 20300 c8hook).sessions.map Session.status
        = [SessionStatus.aborted] := by
  have happ := c8_amended 20300 c8hook 3300 "3300-x"
    (by decide) (by decide) (by decide) (by decide)
  rw [happ.1, happ.2 (by decide) (by decide)]
  decide

/-- Claim C9: resume from Paused adds exactly now − pausedAt to the
accumulated pause duration, clears pausedAt, and returns to Running with
the recomputed remaining time equal to the remaining time at the instant
of pause (the pause does not reduce remaining time); when that remaining
is ≤ 0 the controller transitions directly to Finished instead. -/
theorem c9_thm (now : Int) (h : Hook) (s pAt : Int)
    (hst : h.state = .paused) (hs : h.startTimestamp = some s) (hs0 : s ≠ 0)
    (hp : h.pausedAt = some pAt) (hp0 : pAt ≠ 0) :
    (targetDurationMs h - (pAt - s - h.accumulatedPausedMs) ≤ 0 →
      (resumeSession now h).state = .finished) ∧
    (0 < targetDurationMs h - (pAt - s - h.accumulatedPausedMs) →
      (resumeSession now h).state = .running ∧
      (resumeSession now h).accumulatedPausedMs
          = h.accumulatedPausedMs + (now - pAt) ∧
      (resumeSession now h).pausedAt = none ∧
      (resumeSession now h).startTimestamp = some s ∧
      targetDurationMs h - (now - s - (resumeSession now h).accumulatedPausedMs)
          = targetDurationMs h - (pAt - s - h.accumulatedPausedMs)) := by
  have hguard : ¬(h.state ≠ .paused ∨ truthy h.startTimestamp = false ∨
      truthy h.pausedAt = false) := by
    rintro (hc | hc | hc)
    · exact hc hst
    · rw [hs] at hc; simp [truthy, bne_iff_ne, hs0] at hc
    · rw [hp] at hc; simp [truthy, bne_iff_ne, hp0] at hc
  simp only [resumeSession, targetDurationMs]
  rw [if_neg hguard]
  simp only [hs, hp, Option.getD]
  constructor
  · intro hle
    split_ifs with hcond
    · exact finishSession_state _ _
    · exfalso
      simp only [targetDurationMs] at hcond
      omega
  · intro hpos
    split_ifs with hcond
    · exfalso
      omega
    · refine ⟨?_, ?_, ?_, ?_, ?_⟩ <;>
        simp [startTimer, persistState, clearTimer, targetDurationMs]
      omega

/-- Claim C9, witness at the scenario of the specification: target
300000ms, paused at elapsed 10000ms, resumed 5000ms later — the
accumulated pause grows by exactly 5000 and the recomputed remaining
equals the remaining at the instant of pause (290000ms, not 285000ms). -/
theorem c9_thm_witness :
    (resumeSession 18500 c9paused).state = TimekeeperState.running ∧
    (resumeSession 18500 c9paused).accumulatedPausedMs
        = c9paused.accumulatedPausedMs + (18500 - 13500) ∧
    (resumeSession 18500 c9paused).pausedAt = none ∧
    (resumeSession 18500 c9paused).startTimestamp = some 3500 ∧
    targetDurationMs c9paused
        - (18500 - 3500 - (resumeSession 18500 c9paused).accumulatedPausedMs)
      = targetDurationMs c9paused - (13500 - 3500 - c9paused.accumulatedPausedMs) := by
  exact (c9_thm 18500 c9paused 3500 13500 (by decide) (by decide) (by decide)
    (by decide) (by decide)).2 (by decide)

/-- Claim C10: resetSession resets exactly the session-scoped data —
state to Idle; remainingMs, armingCountdown, the warning flags, all
session timestamps, the generated id, the accumulated pause duration and
the timer handles cleared; the snapshot removed — while the mute flag,
the session configuration (activity type, target duration, warning
threshold), the audio gate, the session history and the alert log are
untouched, as the frame of the record update shows. -/
theorem c10_frame (h : Hook) :
    resetSession h = { h with
      state := .idle, remainingMs := 0, armingCountdown := 0,
      isWarning := false,
      startTimestamp := none, pausedAt := none, accumulatedPausedMs := 0,
      armingStartTimestamp := none, warningTriggered := false,
      finishAlarmTriggered := false, sessionId := none,
      mainTimer := none, armingTimer := none, persistTimer := false,
      snapshot := none } := rfl

end Timekeeper
